import Mathlib

set_option autoImplicit false

/-!
Shallow embedding of the Yukibot workload-supervision core, translated from
the Python sources:

* `src/apps/_tailer.py`  — the `Tailer` read loop and matcher dispatch
* `src/_discord.py`      — the `DC_Relay` outbound queue consumer and the
                           inbound fan-out / dedup path
* `src/apps/_rcon.py`    — the request/response protocol client
* `src/apps/_telnet.py`  — the line-oriented protocol client
* `src/apps/_app.py`     — workload termination and `check_running`

External effects (socket connects, `chan.send`, subprocess signals, matcher
bodies) are modelled by explicit oracles: a `Bool`/enumeration argument says
how the external call would have behaved, and the embedded function mirrors
the Python control flow around that outcome.
-/

namespace Yukibot

/-! ## Tailer (`src/apps/_tailer.py`)

`Tailer._reader_loop` reads one line at a time, skips empty reads, strips
`" \r\n\t"`, stores the line in `self._log[count]`, increments `count`, and
then awaits every registered matcher in registration order.  The whole
`while True` body sits inside a single `try`; the matching `except` at line
214 logs and falls through to `finally`, ending the coroutine. -/

/-- characters stripped by Python `line.strip(" \r\n\t")` at `_tailer.py:200` -/
def isStripChar (c : Char) : Bool :=
  c = ' ' || c = '\r' || c = '\n' || c = '\t'

/-- Python `s.strip(" \r\n\t")`: drop the stripped characters from both ends. -/
def pyStrip (s : String) : String :=
  String.mk (((s.data.dropWhile isStripChar).reverse.dropWhile isStripChar).reverse)

/-- a registered matcher: its registry name and an oracle saying on which
lines the awaited call returns normally (`true`) or raises (`false`) -/
structure Matcher where
  name : String
  ok : String → Bool

/-- observable events of the read loop: a line stored into `self._log` at an
index, a matcher invoked on a line, a matcher raising on a line -/
inductive TailEvent
  | store (idx : Nat) (line : String)
  | invoke (matcher : String) (line : String)
  | raised (matcher : String) (line : String)
deriving DecidableEq, Repr

/-- the `for func, matcher in self._matchers.items()` loop at
`_tailer.py:209-212`: matchers run sequentially; a raising matcher's
exception propagates out of the `for`, so later matchers are not reached.
Returns the events and whether the loop body completed normally. -/
def dispatchMatchers (line : String) : List Matcher → List TailEvent × Bool
  | [] => ([], true)
  | m :: rest =>
    if m.ok line then
      let r := dispatchMatchers line rest
      (TailEvent.invoke m.name line :: r.1, r.2)
    else
      ([TailEvent.invoke m.name line, TailEvent.raised m.name line], false)

/-- `Tailer._reader_loop` (`_tailer.py:164-221`), driven by the finite list of
lines the bound source yields.  An empty read is skipped (`elif not line:
continue`, line 197); otherwise the line is stripped, stored at the current
`count` (line 203) *before* the matcher loop runs, and `count` is
incremented.  A matcher exception propagates to the `except` at line 214:
the loop terminates and no further line is read.  Returns the event trace,
the `self._log` entries added, and whether the loop is still alive. -/
def readerLoop (ms : List Matcher) : Nat → List String → List TailEvent × List (Nat × String) × Bool
  | _, [] => ([], [], true)
  | count, raw :: rest =>
    if raw = "" then readerLoop ms count rest
    else
      let line := pyStrip raw
      let d := dispatchMatchers line ms
      if d.2 then
        let r := readerLoop ms (count + 1) rest
        (TailEvent.store count line :: (d.1 ++ r.1), (count, line) :: r.2.1, r.2.2)
      else
        (TailEvent.store count line :: d.1, [(count, line)], false)

/-- the events the spec expects for one line: the store first, then one
invocation per registered matcher in registration order -/
def lineTrace (ms : List Matcher) (idx : Nat) (line : String) : List TailEvent :=
  TailEvent.store idx line :: ms.map (fun m => TailEvent.invoke m.name line)

/-- the expected whole-trace: the per-line blocks concatenated in source
order, indices counting up from `c` -/
def expectedTrace (ms : List Matcher) : Nat → List String → List TailEvent
  | _, [] => []
  | c, l :: ls => lineTrace ms c (pyStrip l) ++ expectedTrace ms (c + 1) ls

/-! ## Relay Queue consumer (`src/_discord.py`)

`DC_Relay._queue_task` (lines 411-420) pops messages off `self.queue` and
awaits `self._send_dc(mess)` with **no** try/except of its own.  Inside
`_send_dc` (lines 448-482) only the final `chan.send(...)` is wrapped in
try/except; the channel-resolution step raises `LookupError` when no
channel is found (line 459), and the formatting steps run unprotected. -/

/-- one queued outbound message: `tag` identifies it for the oracles,
`chatChannel` is `message.app.chat_channel` (`none` when unset) -/
structure RelayMsg where
  tag : Nat
  chatChannel : Option Nat
deriving DecidableEq, Repr

/-- outcome of processing one dequeued message -/
inductive Delivery
  | delivered
  | dropped
deriving DecidableEq, Repr

/-- `DC_Relay._send_dc` (`_discord.py:448-482`) under three oracles:
`resolves cid` — whether `resolve_channel` finds a textable channel for
`cid`; `formats tag` — whether the formatting steps (playerplate, template
`format_map`, mention parsing, enrichment await, lines 461-473) complete
without raising; `sendOk tag` — whether `chan.send` succeeds.  Returns
`none` when an exception propagates out of `_send_dc`: an unresolvable (or
unset) channel raises `LookupError` at line 459, a formatting error raises
unprotected; only a `chan.send` failure is caught by the try/except at
lines 474-482, which logs and drops the message. -/
def send_dc (resolves : Nat → Bool) (formats : Nat → Bool) (sendOk : Nat → Bool)
    (m : RelayMsg) : Option Delivery :=
  match m.chatChannel with
  | none => none
  | some cid =>
    if resolves cid then
      if formats m.tag then
        if sendOk m.tag then some Delivery.delivered else some Delivery.dropped
      else none
    else none

/-- `DC_Relay._queue_task` (`_discord.py:411-420`), drained over the finite
list of messages that enter the queue.  Each message is popped and handed to
`_send_dc`; there is no try/except in the loop, so an exception from
`_send_dc` terminates the task and the rest of the queue is never
processed.  Returns the per-message outcomes and whether the consumer loop
is still alive. -/
def queue_task (resolves formats sendOk : Nat → Bool) :
    List RelayMsg → List (Nat × Delivery) × Bool
  | [] => ([], true)
  | m :: rest =>
    match send_dc resolves formats sendOk m with
    | none => ([], false)
    | some d =>
      let r := queue_task resolves formats sendOk rest
      ((m.tag, d) :: r.1, r.2)

/-! ## Inbound fan-out and dedup (`src/_discord.py:492-539`)

`DC_Relay.on_dc_message` filters non-human events, events on channels with
no entry in `_chat_channels`, and messages starting with
`config.CHAT_IGNORE` (the string `"!"`); drops duplicates by
`ctx.message_id` against `seen_messages_id`; then iterates the subscribed
apps (`await app.am_receiver.send(message)`) and the out-of-band
`_special_channels` callbacks (`await send_func(message)`), with no
try/except around either loop. -/

/-- a workload subscribed to a chat channel: `running` is `app._running`,
`hasReceiver` is `bool(app.am_receiver)`, and `ok` says whether the awaited
`am_receiver.send` returns normally -/
structure Subscriber where
  name : String
  running : Bool
  hasReceiver : Bool
  ok : Bool
deriving DecidableEq, Repr

/-- an out-of-band subscriber callback registered in `_special_channels`:
its label and whether the awaited call returns normally -/
structure SpecialSub where
  label : String
  ok : Bool
deriving DecidableEq, Repr

/-- the mutable relay state `on_dc_message` reads: the dedup set
`seen_messages_id`, the channel → subscribed-apps map `_chat_channels`,
and the channel → callbacks map `_special_channels` -/
structure RelayInState where
  seen : List Nat
  chat : List (Nat × List Subscriber)
  special : List (Nat × List SpecialSub)
deriving DecidableEq, Repr

/-- an inbound chat event: `ctx.is_human`, `ctx.channel_id`, `ctx.content`
(empty string models a falsy content), `ctx.message_id` -/
structure InEvent where
  isHuman : Bool
  channelId : Nat
  content : String
  messageId : Nat
deriving DecidableEq, Repr

/-- Python `s.startswith(pre)` over the character lists (kernel-reducible,
unlike `String.startsWith`) -/
def pyStartsWith (s pre : String) : Bool :=
  pre.data.isPrefixOf s.data

/-- association lookup standing in for Python dict indexing -/
def alistFind {α : Type} (l : List (Nat × α)) (k : Nat) : Option α :=
  (l.find? (fun p => p.1 = k)).map (fun p => p.2)

/-- the `for app in self._chat_channels[ctx.channel_id]` loop at
`_discord.py:532-536`: only running apps with a receiver are sent to; a
raising `send` propagates out of the loop.  Returns the names invoked and
whether the loop completed. -/
def fanApps : List Subscriber → List String × Bool
  | [] => ([], true)
  | a :: rest =>
    if a.running && a.hasReceiver then
      if a.ok then
        let r := fanApps rest
        (a.name :: r.1, r.2)
      else ([a.name], false)
    else fanApps rest

/-- the `for app_name, send_func in self._special_channels[ctx.channel_id]`
loop at `_discord.py:537-539`: every callback is awaited; a raising one
propagates. -/
def fanSpecials : List SpecialSub → List String × Bool
  | [] => ([], true)
  | s :: rest =>
    if s.ok then
      let r := fanSpecials rest
      (s.label :: r.1, r.2)
    else ([s.label], false)

/-- `DC_Relay.on_dc_message` (`_discord.py:492-539`).  Returns the new
state, the list of subscriber invocations (app names then callback labels),
and whether the handler completed without an exception.  The dedup check
happens after the human/channel/ignore guards and before any fan-out; a
subscriber exception aborts the remaining fan-out.  Line 537 indexes
`self._special_channels[ctx.channel_id]` directly, so a channel with no
entry in that dict raises `KeyError` there — after the workload loop, before
any callback runs — and the handler dies (`false` with no callback
invocations).  This is the live path of the wired program:
`register_app_channel` (`_discord.py:394-396`) writes only
`_chat_channels`, and the sole `_special_channels` writer
(`_space_engineers.py`) is never imported or constructed by `main.py`. -/
def on_dc_message (st : RelayInState) (e : InEvent) : RelayInState × List String × Bool :=
  if !e.isHuman then (st, [], true)
  else
    match alistFind st.chat e.channelId with
    | none => (st, [], true)
    | some apps =>
      if (!(e.content == "") && pyStartsWith (pyStrip e.content) "!") then (st, [], true)
      else if e.messageId ∈ st.seen then (st, [], true)
      else
        let st1 : RelayInState := { st with seen := e.messageId :: st.seen }
        let r1 := fanApps apps
        if !r1.2 then (st1, r1.1, false)
        else
          match alistFind st.special e.channelId with
          | none => (st1, r1.1, false)
          | some specials =>
            let r2 := fanSpecials specials
            (st1, r1.1 ++ r2.1, r2.2)

/-! ## Rcon protocol client (`src/apps/_rcon.py`)

`RconClient` keeps `_rcon` (the transport object, `None` until the first
construction attempt), `_connected` and `_running`.  `setup()` (lines
59-85) runs a `while attempts < self._max_attempts` loop; each iteration
constructs a fresh `AsyncRCONClient` (so `_rcon` becomes non-`None`) and
awaits `connect()`.  The loop never consults `app_alive`.  On
`RCONConnectError` it counts an attempt and retries; on any other exception
it returns `None` immediately; on success it sets `_connected` and breaks.
After the loop it raises `RuntimeError` iff `_connected` is still false. -/

/-- connection-level state of an `RconClient` -/
structure RconState where
  rcon : Bool
  connected : Bool
  running : Bool
deriving DecidableEq, Repr

/-- outcome of one `AsyncRCONClient(...)` + `connect()` attempt -/
inductive ConnOut
  | ok
  | refused
  | err
deriving DecidableEq, Repr

/-- how a call to `setup()` exits: connected normally, returned `None`
(generic-exception path), or raised `RuntimeError` -/
inductive SetupExit
  | connected
  | returnedNone
  | fatal
deriving DecidableEq, Repr

/-- the `while attempts < self._max_attempts` loop of `RconClient.setup`
(`_rcon.py:63-85`), recursing on the remaining attempt budget; `a` is the
current attempt index fed to the `outcome` oracle.  The third component
counts the connection attempts actually performed.  When the budget is
exhausted, the trailing `if self._connected: ... else: raise RuntimeError`
runs (lines 82-85) — note a client that entered `setup` already connected
passes that check even when every fresh attempt was refused. -/
def rconSetupIter (outcome : Nat → ConnOut) : Nat → Nat → RconState → SetupExit × RconState × Nat
  | 0, _, s => (if s.connected then SetupExit.connected else SetupExit.fatal, s, 0)
  | r + 1, a, s =>
    match outcome a with
    | ConnOut.ok => (SetupExit.connected, { s with rcon := true, connected := true }, 1)
    | ConnOut.refused =>
      let t := rconSetupIter outcome r (a + 1) { s with rcon := true }
      (t.1, t.2.1, t.2.2 + 1)
    | ConnOut.err => (SetupExit.returnedNone, { s with rcon := true }, 1)

/-- `RconClient.setup` (`_rcon.py:59-85`): sets `_running`, then runs the
retry loop from attempt 0.  There is no liveness check and no
already-connected early return — the loop body runs regardless. -/
def rconSetup (outcome : Nat → ConnOut) (maxAttempts : Nat) (s : RconState) :
    SetupExit × RconState × Nat :=
  rconSetupIter outcome maxAttempts 0 { s with running := true }

/-- `RconClient.teardown` (`_rcon.py:87-94`) -/
def rconTeardown (_s : RconState) : RconState :=
  { rcon := false, connected := false, running := false }

/-- summary oracle for a `setup()` call made from inside `send`: which of
the three `SetupExit` outcomes it produces, applied to the state.  `none`
means the `RuntimeError` propagates. -/
def rconSetupApply : SetupExit → RconState → Option RconState
  | SetupExit.connected, s => some { s with rcon := true, connected := true, running := true }
  | SetupExit.returnedNone, s => some { s with rcon := true, running := true }
  | SetupExit.fatal, _ => none

/-- outcome of the `self._rcon.send_command(...)` call inside `send` -/
inductive CmdOutcome
  | ok
  | connErr
  | sendErr
  | genErr
deriving DecidableEq, Repr

/-- result of a `send` call as seen by the caller -/
inductive SendOut
  | value
  | retNone
  | raises
deriving DecidableEq, Repr

/-- `RconClient.send` (`_rcon.py:105-135`) under oracles: `alive` is
`self.app_alive()`, `setupB` the behaviour of any `setup()` call made
during this `send`, `cmd` the behaviour of the command round-trip.
Returns (result, final state, whether `setup()` was called before the
command).  Control flow from the source: not-alive returns `None`
(line 106); `if not self._rcon or not self._connected` awaits `setup()`
(lines 108-112; a `RuntimeError` from it propagates out of `send`),
then `if not self._rcon: return None`; the command is tried; the
`RCONConnectError` / `RCONSendError` handlers tear down, await `setup()`
again (which can itself raise) and fall through returning `None`; the
generic handler does the same with an explicit `return None`
(lines 123-135). -/
def rconSend (alive : Bool) (setupB : SetupExit) (cmd : CmdOutcome) (s : RconState) :
    SendOut × RconState × Bool :=
  if !alive then (SendOut.retNone, s, false)
  else
    let setupCalled := !s.rcon || !s.connected
    let s1? := if setupCalled then rconSetupApply setupB s else some s
    match s1? with
    | none => (SendOut.raises, s, setupCalled)
    | some s1 =>
      if setupCalled && !s1.rcon then (SendOut.retNone, s1, setupCalled)
      else
        match cmd with
        | CmdOutcome.ok => (SendOut.value, s1, setupCalled)
        | _ =>
          match rconSetupApply setupB (rconTeardown s1) with
          | none => (SendOut.raises, rconTeardown s1, setupCalled)
          | some s2 => (SendOut.retNone, s2, setupCalled)

/-! ## Telnet protocol client (`src/apps/_telnet.py`)

`TelnetClient` keeps `_reader`, `_writer`, `_running` and a
`connected_event`.  `setup()` (lines 50-81) sets the event and returns the
existing reader immediately when one is present; otherwise it loops: an
iteration where `app_alive()` is false sleeps and `continue`s without
counting an attempt; otherwise it attempts `open_connection` —
success connects and returns, `ConnectionRefusedError` counts an attempt,
any other exception `break`s; falling out of the loop raises
`RuntimeError`. -/

/-- connection-level state of a `TelnetClient` -/
structure TelState where
  reader : Bool
  writer : Bool
  running : Bool
  eventSet : Bool
deriving DecidableEq, Repr

/-- `TelnetClient.is_connected` (`_telnet.py:125-127`) -/
def telIsConnected (s : TelState) : Bool :=
  s.reader && s.writer && s.running

/-- how a call to `TelnetClient.setup` exits: returned a reader, raised
`RuntimeError`, or is still looping when the observation window (`fuel`)
ends -/
inductive TSetupExit
  | returned
  | fatal
  | stillWaiting
deriving DecidableEq, Repr

/-- the `while attempts < self._max_attempts` loop of `TelnetClient.setup`
(`_telnet.py:59-81`).  `it` indexes loop iterations (feeding the `alive`
and `outcome` oracles), `a` is the `attempts` counter, and the result lists
the iterations at which a connection was actually attempted.  A
not-alive iteration loops without attempting or counting; `refused` counts
an attempt; any other connect exception `break`s to the `raise
RuntimeError` at line 81, as does exhausting the cap. -/
def telSetupIter (alive : Nat → Bool) (outcome : Nat → ConnOut) :
    Nat → Nat → Nat → Nat → TelState → TSetupExit × TelState × List Nat
  | 0, _, _, _, s => (TSetupExit.stillWaiting, s, [])
  | f + 1, it, a, maxA, s =>
    if a ≥ maxA then (TSetupExit.fatal, s, [])
    else if !(alive it) then telSetupIter alive outcome f (it + 1) a maxA s
    else
      match outcome it with
      | ConnOut.ok =>
        (TSetupExit.returned, { s with reader := true, writer := true, running := true }, [it])
      | ConnOut.refused =>
        let t := telSetupIter alive outcome f (it + 1) (a + 1) maxA s
        (t.1, t.2.1, it :: t.2.2)
      | ConnOut.err => (TSetupExit.fatal, s, [it])

/-- `TelnetClient.setup` (`_telnet.py:50-81`): sets `connected_event`, then
`if self._reader: return self._reader` (line 53) before any connection
attempt; otherwise runs the retry loop. -/
def telSetup (alive : Nat → Bool) (outcome : Nat → ConnOut) (fuel maxA : Nat) (s : TelState) :
    TSetupExit × TelState × List Nat :=
  let s0 := { s with eventSet := true }
  if s0.reader then (TSetupExit.returned, s0, [])
  else telSetupIter alive outcome fuel 0 0 maxA s0

/-- `TelnetClient.teardown` (`_telnet.py:83-94`): clears the event; when
`_running` is false it returns at once, otherwise closes and clears the
transport -/
def telTeardown (s : TelState) : TelState :=
  if !s.running then { s with eventSet := false }
  else { reader := false, writer := false, running := false, eventSet := false }

/-- summary oracle for a `setup()` call made from inside `TelnetClient.send`:
`TSetupExit.returned` either finds an existing reader or connects;
`TSetupExit.fatal` raises `RuntimeError` (`none`). -/
def telSetupApply : TSetupExit → TelState → Option TelState
  | TSetupExit.returned, s =>
    if s.reader then some { s with eventSet := true }
    else some { reader := true, writer := true, running := true, eventSet := true }
  | _, _ => none

/-- result of a `TelnetClient.send` call as seen by the caller -/
inductive TSendOut
  | retTrue
  | retFalse
  | retNone
  | raises
deriving DecidableEq, Repr

/-- the try/except body of `TelnetClient.send` (`_telnet.py:108-123`):
`if not self._writer: raise ConnectionError` is itself caught by the same
`except`, which tears down and returns `False`; a failed write/drain
(`writeOk = false`) likewise tears down and returns `False`; otherwise
returns `True`.  There is no reconnection in this handler. -/
def telSendBody (writeOk : Bool) (s : TelState) : TSendOut × TelState :=
  if !s.writer then (TSendOut.retFalse, telTeardown s)
  else if writeOk then (TSendOut.retTrue, s)
  else (TSendOut.retFalse, telTeardown s)

/-- `TelnetClient.send` (`_telnet.py:96-123`) under oracles: `alive` is
`self.app_alive()`, `setupB` the behaviour of a `setup()` call made during
this `send`, `writeOk` the behaviour of write+drain.  When not connected:
a dead app returns `None`; otherwise `setup()` is awaited (a `RuntimeError`
propagates out of `send`), and if still not connected `False` is returned
(lines 97-103). -/
def telSend (alive : Bool) (setupB : TSetupExit) (writeOk : Bool) (s : TelState) :
    TSendOut × TelState × Bool :=
  if telIsConnected s then
    let r := telSendBody writeOk s
    (r.1, r.2, false)
  else if !alive then (TSendOut.retNone, s, false)
  else
    match telSetupApply setupB s with
    | none => (TSendOut.raises, s, true)
    | some s1 =>
      if !(telIsConnected s1) then (TSendOut.retFalse, s1, true)
      else
        let r := telSendBody writeOk s1
        (r.1, r.2, true)

/-! ## Identity pooling (`src/apps/_rcon.py:17-44`, `src/apps/_telnet.py:14-34`)

Both clients share the same `__new__`/`__init__` shape: `__new__` computes
`key = id(app_alive), host, port`, returns `cls._instances[key]` when
present, else stores a blank instance under the key; `__init__` then runs
on whatever `__new__` returned and returns immediately when
`getattr(self, "_initialized", False)` is already true, so a pooled
instance's fields are written exactly once. -/

/-- the pooling key `(id(app_alive), host, port)` -/
structure ClientKey where
  aliveId : Nat
  host : String
  port : Nat
deriving DecidableEq, Repr

/-- a pooled instance: the `_initialized` flag plus the client state the
first `__init__` wrote (`none` on a blank instance fresh out of
`super().__new__`) -/
structure Pooled (σ : Type) where
  initialized : Bool
  st : Option σ
deriving DecidableEq, Repr

/-- the `__init__` guard (`_rcon.py:42-44`, `_telnet.py:32-34`): an already
initialized instance is returned untouched; otherwise the constructor
arguments `mk` are written and the flag set -/
def clientInit {σ : Type} (mk : σ) (c : Pooled σ) : Pooled σ :=
  if c.initialized then c else { initialized := true, st := some mk }

/-- association update used by the pool model -/
def alistPut {α : Type} (l : List (ClientKey × α)) (k : ClientKey) (v : α) :
    List (ClientKey × α) :=
  match l with
  | [] => [(k, v)]
  | (k0, v0) :: rest => if k0 = k then (k, v) :: rest else (k0, v0) :: alistPut rest k v

/-- pool lookup (`key in cls._instances`) -/
def poolFind {σ : Type} (pool : List (ClientKey × Pooled σ)) (k : ClientKey) :
    Option (Pooled σ) :=
  (pool.find? (fun p => p.1 = k)).map (fun p => p.2)

/-- one construction `Cls(app_alive, port, host=...)`: `__new__`
(`_rcon.py:17-31` / `_telnet.py:14-20`) followed by `__init__` with
constructor state `mk`.  Returns the instance the caller ends up holding
and the updated pool (the pool holds the same object, so the `__init__`
effect is visible in both). -/
def clientConstruct {σ : Type} (pool : List (ClientKey × Pooled σ)) (k : ClientKey)
    (mk : σ) : Pooled σ × List (ClientKey × Pooled σ) :=
  match poolFind pool k with
  | some inst =>
    let inst1 := clientInit mk inst
    (inst1, alistPut pool k inst1)
  | none =>
    let inst1 := clientInit mk { initialized := false, st := none }
    (inst1, alistPut pool k inst1)

/-! ## Workload termination (`src/apps/_app.py`)

`App._terminate` (lines 169-195): with a stored handle it (a) tries
`terminate()`, `wait(timeout=5)` and the stderr-task await inside one
try/except that only logs; (b) polls `poll()` up to 10 times sleeping 0.3s
between checks; (c) if the handle never reported an exit, tries `kill()` +
`wait(timeout=5)` inside a second log-only try/except; and (d)
unconditionally executes `self.process = None` (line 195).  The follow-up
stray-process scan (lines 197-223) does not touch `self.process`.
`App.check_running` (lines 225-226) is
`bool(self.process) and self.process.poll() is None`. -/

/-- behaviour of the OS process behind the stored handle:
whether `terminate()` raises, whether a delivered terminate makes the
process exit, whether `kill()` raises, whether a delivered kill makes it
exit.  `wait(timeout=5)` raises `TimeoutExpired` exactly when the process
has not exited; both waits sit inside log-only handlers. -/
structure ProcBehavior where
  termRaises : Bool
  diesOnTerm : Bool
  killRaises : Bool
  diesOnKill : Bool
deriving DecidableEq, Repr

/-- observable steps of the escalation, with their configured durations -/
inductive TermEvent
  | terminate
  | graceWaitSec (seconds : Nat)
  | pollSleepMs (ms : Nat)
  | kill
deriving DecidableEq, Repr

/-- the stored-handle part of `App._terminate` (`_app.py:173-195`): the
escalation trace and whether the OS process is dead afterwards.  A raising
`terminate()` skips the `wait(5)`; a process dead after terminate breaks
the poll loop at its first check (no sleeps, no kill); otherwise all 10
sleeps run and the `for`'s `else:` clause escalates to `kill()`. -/
def terminateProc (p : ProcBehavior) : List TermEvent × Bool :=
  let phase1 : List TermEvent :=
    if p.termRaises then [TermEvent.terminate]
    else [TermEvent.terminate, TermEvent.graceWaitSec 5]
  if !p.termRaises && p.diesOnTerm then (phase1, true)
  else
    (phase1 ++ List.replicate 10 (TermEvent.pollSleepMs 300) ++ [TermEvent.kill],
     !p.killRaises && p.diesOnKill)

/-- the slice of `App` state these claims are about: the stored handle with
its behaviour, the configured `proc_name`, the `_running` flag -/
structure AppState where
  process : Option ProcBehavior
  procName : Option String
  running : Bool
deriving DecidableEq, Repr

/-- `App._terminate` (`_app.py:169-195`) at the level of the stored handle:
a missing handle produces no escalation (lines 170-172 return early when
`proc_name` is also unset; with a `proc_name` only the scan runs); with a
handle the escalation runs and `self.process = None` executes on the way
out regardless of which steps raised.  The stray-process scan touches OS
state only, never `self.process`. -/
def appTerminate (s : AppState) : AppState × List TermEvent :=
  match s.process with
  | none => (s, [])
  | some p => ({ s with process := none }, (terminateProc p).1)

/-- `App.check_running` (`_app.py:225-226`): a handle exists and
`poll()` reports no exit.  `exited` says what `poll()` currently reports
for the stored handle. -/
def check_running (s : AppState) (exited : Bool) : Bool :=
  match s.process with
  | none => false
  | some _ => !exited

/-- the base-class `stop()` (`src/apps/_base/__init__.py:63-67`,
representative of every concrete `stop`): flips `_running` false, then
awaits `_terminate()` -/
def appStop (s : AppState) : AppState × List TermEvent :=
  appTerminate { s with running := false }

/-! ## Theorems -/

/-- helper: when every registered matcher returns normally on `line`, the
dispatch loop invokes each matcher once, in registration order -/
theorem dispatchMatchers_ok (line : String) (ms : List Matcher)
    (hm : ∀ m ∈ ms, m.ok line = true) :
    dispatchMatchers line ms = (ms.map (fun m => TailEvent.invoke m.name line), true) := by
  induction ms with
  | nil => rfl
  | cons m rest ih =>
    have hmok : m.ok line = true := hm m (List.mem_cons_self m rest)
    have hrest := ih (fun x hx => hm x (List.mem_cons_of_mem m hx))
    simp [dispatchMatchers, hmok, hrest]

/-- C1: the spec requires a matcher's exception to be caught and logged
individually, with every other registered matcher still invoked on the same
and subsequent lines.  In `Tailer._reader_loop` the matcher calls sit
inside the loop-wide `try` whose `except` (at `_tailer.py:214`) ends the
coroutine: with matchers `bad` (always raises) and `good` registered and
source lines `["alpha", "beta"]`, the trace stops at `bad`'s exception —
`good` is never invoked on `"alpha"` or `"beta"`, `"beta"` is never stored,
and the read loop is dead. -/
theorem tailer_matcher_raise_kills_dispatch :
    readerLoop [⟨"bad", fun _ => false⟩, ⟨"good", fun _ => true⟩] 0 ["alpha", "beta"] =
      ([TailEvent.store 0 "alpha", TailEvent.invoke "bad" "alpha",
        TailEvent.raised "bad" "alpha"], [(0, "alpha")], false) ∧
    TailEvent.invoke "good" "alpha" ∉
      (readerLoop [⟨"bad", fun _ => false⟩, ⟨"good", fun _ => true⟩] 0 ["alpha", "beta"]).1 ∧
    TailEvent.invoke "good" "beta" ∉
      (readerLoop [⟨"bad", fun _ => false⟩, ⟨"good", fun _ => true⟩] 0 ["alpha", "beta"]).1 ∧
    TailEvent.store 1 "beta" ∉
      (readerLoop [⟨"bad", fun _ => false⟩, ⟨"good", fun _ => true⟩] 0 ["alpha", "beta"]).1 := by
  decide

/-- C2: for a source yielding non-empty lines, with every registered
matcher returning normally, the read loop stores line `i` (stripped) under
the strictly increasing index `c + i` before that line's matchers run, and
invokes every matcher exactly once per line in registration order, lines in
exact source order — `expectedTrace` is one `store` followed by the
per-matcher invocations for each line in turn, and the log pairs
`List.range' c lines.length` with the stripped lines. -/
theorem tailer_line_order (ms : List Matcher) (c : Nat) (lines : List String)
    (hm : ∀ m ∈ ms, ∀ l, m.ok l = true)
    (hl : ∀ l ∈ lines, l ≠ "") :
    readerLoop ms c lines =
      (expectedTrace ms c lines,
       (List.range' c lines.length).zip (lines.map pyStrip), true) := by
  induction lines generalizing c with
  | nil => simp [readerLoop, expectedTrace]
  | cons x xs ih =>
    have hx : ¬(x = "") := hl x (List.mem_cons_self x xs)
    have hdisp := dispatchMatchers_ok (pyStrip x) ms (fun m hmem => hm m hmem (pyStrip x))
    have hrest := ih (c + 1) (fun l hmem => hl l (List.mem_cons_of_mem x hmem))
    simp [readerLoop, hx, hdisp, hrest, expectedTrace, lineTrace, List.range'_succ]

/-- witness for `tailer_line_order` at matchers `a`, `b` (never raising) and
source lines `["one", "two "]` -/
theorem tailer_line_order_witness :
    readerLoop [⟨"a", fun _ => true⟩, ⟨"b", fun _ => true⟩] 0 ["one", "two "] =
      ([TailEvent.store 0 "one", TailEvent.invoke "a" "one", TailEvent.invoke "b" "one",
        TailEvent.store 1 "two", TailEvent.invoke "a" "two", TailEvent.invoke "b" "two"],
       [(0, "one"), (1, "two")], true) := by
  rw [tailer_line_order [⟨"a", fun _ => true⟩, ⟨"b", fun _ => true⟩] 0 ["one", "two "]
    (by intro m hmem l; fin_cases hmem <;> rfl)
    (by intro l hmem; fin_cases hmem <;> simp)]
  decide

/-- C3: the spec requires the Relay Queue consumer to catch and log every
exception raised while formatting or delivering a dequeued message —
including a failed channel resolution — and keep draining.
`DC_Relay._queue_task` has no try/except, and inside `_send_dc` only
`chan.send` is protected: a message whose channel does not resolve raises
`LookupError` through `_queue_task` and permanently kills the consumer, so
the deliverable message queued behind it is never processed.  (A `chan.send`
failure, by contrast, really is logged, the message dropped, and the loop
continues — second and third conjuncts.) -/
theorem queue_task_dies_on_unresolvable_channel :
    queue_task (fun c => c == 7) (fun _ => true) (fun _ => true)
      [⟨0, some 5⟩, ⟨1, some 7⟩] = ([], false) ∧
    queue_task (fun c => c == 7) (fun _ => true) (fun _ => true)
      [⟨1, some 7⟩] = ([(1, Delivery.delivered)], true) ∧
    queue_task (fun c => c == 7) (fun _ => true) (fun _ => false)
      [⟨1, some 7⟩, ⟨2, some 7⟩] =
      ([(1, Delivery.dropped), (2, Delivery.dropped)], true) := by
  decide

/-- C4 counterexample: a disconnected `RconClient` whose workload is alive
but whose listener refuses every connection makes `send` raise instead of
returning a failure sentinel — the `setup()` awaited at `_rcon.py:110`
exhausts its 30 attempts (first conjunct: all-refused drives the real setup
loop to the `raise RuntimeError` at line 85) and that exception propagates
out of `send` (second conjunct), contradicting the claim that `send`
returns `None`/`False` in every case. -/
theorem rconSend_raises_on_exhausted_setup :
    rconSetup (fun _ => ConnOut.refused) 30 ⟨false, false, false⟩ =
      (SetupExit.fatal, ⟨true, false, true⟩, 30) ∧
    rconSend true SetupExit.fatal CmdOutcome.ok ⟨false, false, false⟩ =
      (SendOut.raises, ⟨false, false, false⟩, true) := by
  decide

/-- C4 amended: `send` transparently calls `setup()` first when not
connected (conjuncts 1-2); whenever the embedded `setup()` does not raise,
`send` returns a failure sentinel instead of raising (conjuncts 3-4); on a
connection-level command error the Rcon variant tears down, re-establishes
once and returns `None` (conjunct 5), while the Telnet variant tears down
and returns `False` without re-establishing (conjunct 6).  What the
original claim adds beyond this — that `send` *never* raises — fails when
the embedded `setup()` exhausts its retry cap
(`rconSend_raises_on_exhausted_setup`). -/
theorem protocol_send_amended :
    (∀ (setupB : SetupExit) (cmd : CmdOutcome) (s : RconState),
      (!s.rcon || !s.connected) = true → (rconSend true setupB cmd s).2.2 = true) ∧
    (∀ (setupB : TSetupExit) (w : Bool) (s : TelState),
      telIsConnected s = false → (telSend true setupB w s).2.2 = true) ∧
    (∀ (alive : Bool) (setupB : SetupExit) (cmd : CmdOutcome) (s : RconState),
      setupB ≠ SetupExit.fatal → (rconSend alive setupB cmd s).1 ≠ SendOut.raises) ∧
    (∀ (alive w : Bool) (s : TelState),
      (telSend alive TSetupExit.returned w s).1 ≠ TSendOut.raises) ∧
    (∀ (cmd : CmdOutcome) (s : RconState),
      s.rcon = true → s.connected = true → cmd ≠ CmdOutcome.ok →
      rconSend true SetupExit.connected cmd s =
        (SendOut.retNone, ⟨true, true, true⟩, false)) ∧
    (∀ (s : TelState), telIsConnected s = true →
      telSend true TSetupExit.returned false s = (TSendOut.retFalse, telTeardown s, false)) := by
  refine ⟨?_, ?_, ?_, ?_, ?_, ?_⟩
  · intro setupB cmd s h
    rcases s with ⟨r, c, run⟩
    cases setupB <;> cases cmd <;> cases r <;> cases c <;> cases run <;> revert h <;> decide
  · intro setupB w s h
    rcases s with ⟨rd, wr, rn, ev⟩
    cases setupB <;> cases w <;> cases rd <;> cases wr <;> cases rn <;> cases ev <;>
      revert h <;> decide
  · intro alive setupB cmd s h
    rcases s with ⟨r, c, run⟩
    cases setupB <;> cases alive <;> cases cmd <;> cases r <;> cases c <;> cases run <;>
      revert h <;> decide
  · intro alive w s
    rcases s with ⟨rd, wr, rn, ev⟩
    cases alive <;> cases w <;> cases rd <;> cases wr <;> cases rn <;> cases ev <;> decide
  · intro cmd s hr hc hcmd
    rcases s with ⟨r, c, run⟩
    cases cmd <;> cases r <;> cases c <;> cases run <;> revert hr hc hcmd <;> decide
  · intro s h
    rcases s with ⟨rd, wr, rn, ev⟩
    cases rd <;> cases wr <;> cases rn <;> cases ev <;> revert h <;> decide

/-- witness for `protocol_send_amended`: each conjunct applied at a concrete
client state and oracle -/
theorem protocol_send_amended_witness :
    (rconSend true SetupExit.connected CmdOutcome.ok ⟨false, false, false⟩).2.2 = true ∧
    (telSend true TSetupExit.returned true ⟨false, false, false, false⟩).2.2 = true ∧
    (rconSend true SetupExit.connected CmdOutcome.connErr ⟨true, true, true⟩).1 ≠
      SendOut.raises ∧
    (telSend true TSetupExit.returned false ⟨true, true, true, true⟩).1 ≠ TSendOut.raises ∧
    rconSend true SetupExit.connected CmdOutcome.connErr ⟨true, true, true⟩ =
      (SendOut.retNone, ⟨true, true, true⟩, false) ∧
    telSend true TSetupExit.returned false ⟨true, true, true, true⟩ =
      (TSendOut.retFalse, telTeardown ⟨true, true, true, true⟩, false) :=
  ⟨protocol_send_amended.1 SetupExit.connected CmdOutcome.ok ⟨false, false, false⟩ (by decide),
   protocol_send_amended.2.1 TSetupExit.returned true ⟨false, false, false, false⟩ (by decide),
   protocol_send_amended.2.2.1 true SetupExit.connected CmdOutcome.connErr
     ⟨true, true, true⟩ (by decide),
   protocol_send_amended.2.2.2.1 true false ⟨true, true, true, true⟩,
   protocol_send_amended.2.2.2.2.1 CmdOutcome.connErr ⟨true, true, true⟩ rfl rfl (by decide),
   protocol_send_amended.2.2.2.2.2 ⟨true, true, true, true⟩ (by decide)⟩

/-- C5 counterexample: an `RconClient` that is already connected
(`⟨rcon, connected, running⟩ = ⟨true, true, true⟩`) does not return
immediately from `setup()` — the `while` loop at `_rcon.py:63` has no
already-connected early return, so the call performs a fresh connection
attempt (third component `1`, not `0`), contradicting "returns immediately
without attempting a new connection". -/
theorem rconSetup_attempts_when_already_connected :
    rconSetup (fun _ => ConnOut.ok) 30 ⟨true, true, true⟩ =
      (SetupExit.connected, ⟨true, true, true⟩, 1) ∧
    (rconSetup (fun _ => ConnOut.ok) 30 ⟨true, true, true⟩).2.2 ≠ 0 := by
  decide

/-- C5 amended: the Telnet variant behaves as claimed — a second `setup()`
while a reader exists returns immediately with no connection attempt and no
state change beyond setting `connected_event` (conjunct 1), and its retry
loop only attempts a connection at iterations where the liveness predicate
is true (conjunct 2).  The Rcon variant does not: whenever its attempt cap
is positive, `setup()` on an already-connected client still performs at
least one fresh connection attempt, and its loop never consults the
liveness predicate at all (conjunct 3; `rconSetup` takes no liveness
argument because `RconClient.setup` never reads `app_alive`). -/
theorem protocol_setup_amended :
    (∀ (alive : Nat → Bool) (outcome : Nat → ConnOut) (fuel maxA : Nat) (s : TelState),
      s.reader = true →
      telSetup alive outcome fuel maxA s =
        (TSetupExit.returned, { s with eventSet := true }, [])) ∧
    (∀ (alive : Nat → Bool) (outcome : Nat → ConnOut) (f it a maxA : Nat) (s : TelState)
      (i : Nat), i ∈ (telSetupIter alive outcome f it a maxA s).2.2 → alive i = true) ∧
    (∀ (outcome : Nat → ConnOut) (maxA : Nat) (s : RconState),
      1 ≤ maxA → s.connected = true → 1 ≤ (rconSetup outcome maxA s).2.2) := by
  refine ⟨?_, ?_, ?_⟩
  · intro alive outcome fuel maxA s h
    simp [telSetup, h]
  · intro alive outcome f
    induction f with
    | zero => intro it a maxA s i hi; simp [telSetupIter] at hi
    | succ n ih =>
      intro it a maxA s i hi
      by_cases hcap : a ≥ maxA
      · simp [telSetupIter, hcap] at hi
      · cases hal : alive it with
        | false => rw [telSetupIter] at hi; simp [hcap, hal] at hi; exact ih (it + 1) a maxA s i hi
        | true =>
          rw [telSetupIter] at hi
          simp [hcap, hal] at hi
          rcases hout : outcome it with _ | _ | _ <;> rw [hout] at hi <;> simp at hi
          · rw [hi, hal]
          · rcases hi with hi | hi
            · rw [hi, hal]
            · exact ih (it + 1) (a + 1) maxA s i hi
          · rw [hi, hal]
  · intro outcome maxA s hmax hconn
    rcases maxA with _ | m
    · omega
    · rw [rconSetup, rconSetupIter]
      rcases hout : outcome 0 with _ | _ | _ <;> simp

/-- witness for `protocol_setup_amended`: a connected Telnet client
re-setup with no attempts; a liveness-gated attempt list; a connected Rcon
client still attempting -/
theorem protocol_setup_amended_witness :
    telSetup (fun _ => true) (fun _ => ConnOut.ok) 5 20 ⟨true, true, true, false⟩ =
      (TSetupExit.returned, ⟨true, true, true, true⟩, []) ∧
    (fun (_ : Nat) => true) 0 = true ∧
    1 ≤ (rconSetup (fun _ => ConnOut.refused) 30 ⟨false, true, false⟩).2.2 :=
  ⟨protocol_setup_amended.1 (fun _ => true) (fun _ => ConnOut.ok) 5 20
     ⟨true, true, true, false⟩ rfl,
   protocol_setup_amended.2.1 (fun _ => true) (fun _ => ConnOut.refused) 3 0 0 5
     ⟨false, false, false, false⟩ 0 (by decide),
   protocol_setup_amended.2.2 (fun _ => ConnOut.refused) 30 ⟨false, true, false⟩
     (by decide) rfl⟩

/-- C6 counterexample: two running workloads (`appA`, `appB`) subscribed to
channel 9 plus one out-of-band callback (`cbC`); `appA`'s receiver raises.
The fan-out loops at `_discord.py:532-539` have no try/except, so the
exception propagates after `appA`'s invocation: `appB` and `cbC` are never
invoked for the event, contradicting "every subscriber is invoked even if
one fails". -/
theorem fanout_aborts_on_raising_subscriber :
    on_dc_message
      ⟨[], [(9, [⟨"appA", true, true, false⟩, ⟨"appB", true, true, true⟩])],
       [(9, [⟨"cbC", true⟩])]⟩
      ⟨true, 9, "hello", 42⟩ =
      (⟨[42], [(9, [⟨"appA", true, true, false⟩, ⟨"appB", true, true, true⟩])],
        [(9, [⟨"cbC", true⟩])]⟩,
       ["appA"], false) := by
  decide

/-- helper: the app fan-out loop with no raising subscriber invokes exactly
the running-with-receiver apps, once each, in iteration order -/
theorem fanApps_allOk (l : List Subscriber) (h : ∀ a ∈ l, a.ok = true) :
    fanApps l = ((l.filter (fun a => a.running && a.hasReceiver)).map
      (fun a => a.name), true) := by
  induction l with
  | nil => rfl
  | cons a rest ih =>
    have ha : a.ok = true := h a (List.mem_cons_self a rest)
    have hrest := ih (fun x hx => h x (List.mem_cons_of_mem a hx))
    by_cases hrun : (a.running && a.hasReceiver) = true
    · simp [fanApps, hrun, ha, hrest, List.filter_cons]
    · simp [fanApps, hrun, hrest, List.filter_cons]

/-- helper: the out-of-band callback loop with no raising callback invokes
every callback once, in iteration order -/
theorem fanSpecials_allOk (l : List SpecialSub) (h : ∀ sp ∈ l, sp.ok = true) :
    fanSpecials l = (l.map (fun sp => sp.label), true) := by
  induction l with
  | nil => rfl
  | cons sp rest ih =>
    have hsp : sp.ok = true := h sp (List.mem_cons_self sp rest)
    have hrest := ih (fun x hx => h x (List.mem_cons_of_mem sp hx))
    simp [fanSpecials, hsp, hrest]

/-- C6 amended: for an inbound event that passes the guards, when no
workload's receiver raises and the channel has an entry in
`_special_channels`, every subscribed running workload with a receiver and
every registered out-of-band callback is invoked exactly once, workloads
first then callbacks, and the handler completes (first conjunct); when the
channel has no `_special_channels` entry — the case for every channel in
the program as wired, since only the never-imported `_space_engineers`
module registers one — the workloads are still each invoked exactly once
but the handler then dies with `KeyError` at `_discord.py:537` before any
callback could run (second conjunct); and when the first subscribed
workload's receiver raises, the exception propagates and no other
subscriber — workload or callback — is invoked for that event (third
conjunct).  So delivery to the remaining subscribers is *not* guaranteed as
the original claim states (`fanout_aborts_on_raising_subscriber`). -/
theorem on_dc_message_amended (st : RelayInState) (e : InEvent) (apps : List Subscriber)
    (hhuman : e.isHuman = true)
    (hchan : alistFind st.chat e.channelId = some apps)
    (hig : (!(e.content == "") && pyStartsWith (pyStrip e.content) "!") = false)
    (hnew : e.messageId ∉ st.seen) :
    ((∀ a ∈ apps, a.ok = true) →
      ∀ specials, alistFind st.special e.channelId = some specials →
      (∀ sp ∈ specials, sp.ok = true) →
      on_dc_message st e =
        ({ st with seen := e.messageId :: st.seen },
         (apps.filter (fun a => a.running && a.hasReceiver)).map (fun a => a.name) ++
           specials.map (fun sp => sp.label),
         true)) ∧
    ((∀ a ∈ apps, a.ok = true) →
      alistFind st.special e.channelId = none →
      on_dc_message st e =
        ({ st with seen := e.messageId :: st.seen },
         (apps.filter (fun a => a.running && a.hasReceiver)).map (fun a => a.name),
         false)) ∧
    (∀ bad rest, apps = bad :: rest → bad.running = true → bad.hasReceiver = true →
      bad.ok = false →
      on_dc_message st e =
        ({ st with seen := e.messageId :: st.seen }, [bad.name], false)) := by
  refine ⟨?_, ?_, ?_⟩
  · intro happs specials hspec hsp
    rw [on_dc_message]
    simp only [hhuman, hchan, hig, Bool.not_true]
    rw [fanApps_allOk apps happs]
    simp [hnew, hspec, fanSpecials_allOk _ hsp]
  · intro happs hspec
    rw [on_dc_message]
    simp only [hhuman, hchan, hig, Bool.not_true]
    rw [fanApps_allOk apps happs]
    simp [hnew, hspec]
  · intro bad rest happs hrun hrecv hbad
    subst happs
    rw [on_dc_message]
    simp only [hhuman, hchan, hig, Bool.not_true]
    simp [hnew, fanApps, hrun, hrecv, hbad]

/-- witness for `on_dc_message_amended`: on channel 9, one event fanned out
to one running workload and one registered callback (first conjunct), and
the same event against a relay state with no `_special_channels` entry —
the workload is invoked, then the handler dies at the callback lookup
(second conjunct) -/
theorem on_dc_message_amended_witness :
    on_dc_message ⟨[], [(9, [⟨"appA", true, true, true⟩])], [(9, [⟨"cbC", true⟩])]⟩
      ⟨true, 9, "hello", 42⟩ =
      (⟨[42], [(9, [⟨"appA", true, true, true⟩])], [(9, [⟨"cbC", true⟩])]⟩,
       ["appA", "cbC"], true) ∧
    on_dc_message ⟨[], [(9, [⟨"appA", true, true, true⟩])], []⟩
      ⟨true, 9, "hello", 42⟩ =
      (⟨[42], [(9, [⟨"appA", true, true, true⟩])], []⟩, ["appA"], false) := by
  constructor
  · have h := (on_dc_message_amended
      ⟨[], [(9, [⟨"appA", true, true, true⟩])], [(9, [⟨"cbC", true⟩])]⟩
      ⟨true, 9, "hello", 42⟩ [⟨"appA", true, true, true⟩]
      rfl (by decide) (by decide) (by decide)).1
      (by intro a ha; fin_cases ha; rfl)
      [⟨"cbC", true⟩] (by decide)
      (by intro sp hsp; fin_cases hsp; rfl)
    rw [h]
    decide
  · have h := (on_dc_message_amended
      ⟨[], [(9, [⟨"appA", true, true, true⟩])], []⟩
      ⟨true, 9, "hello", 42⟩ [⟨"appA", true, true, true⟩]
      rfl (by decide) (by decide) (by decide)).2.1
      (by intro a ha; fin_cases ha; rfl)
      (by decide)
    rw [h]
    decide

/-- helper: an `alistPut` insert is found again -/
theorem poolFind_alistPut {σ : Type} (l : List (ClientKey × Pooled σ)) (k : ClientKey)
    (v : Pooled σ) : poolFind (alistPut l k v) k = some v := by
  induction l with
  | nil => simp [alistPut, poolFind, List.find?]
  | cons p rest ih =>
    rcases p with ⟨k0, v0⟩
    by_cases h : k0 = k
    · simp [alistPut, h, poolFind, List.find?]
    · simp only [alistPut, h, if_false, ite_false]
      simpa [poolFind, List.find?, h] using ih

/-- helper: re-inserting the value already stored under a key changes
nothing -/
theorem alistPut_idem {σ : Type} (l : List (ClientKey × Pooled σ)) (k : ClientKey)
    (v : Pooled σ) : alistPut (alistPut l k v) k v = alistPut l k v := by
  induction l with
  | nil => simp [alistPut]
  | cons p rest ih =>
    rcases p with ⟨k0, v0⟩
    by_cases h : k0 = k <;> simp [alistPut, h, ih]

/-- C7: identity pooling — with key `k` not yet pooled, a first
construction writes the instance `⟨initialized, state mk1⟩` into the pool,
and a second construction with the same key (and arbitrary, even
different, constructor arguments `mk2`) returns the very same instance and
leaves the pool — in particular the existing instance's state — unchanged:
`__new__` finds the pooled instance (`_rcon.py:27-28` / `_telnet.py:16-17`)
and the `__init__` guard (`_rcon.py:42-44` / `_telnet.py:32-34`) returns
before touching any field. -/
theorem client_identity_pooling {σ : Type} (pool : List (ClientKey × Pooled σ))
    (k : ClientKey) (mk1 mk2 : σ) (hk : poolFind pool k = none) :
    clientConstruct (clientConstruct pool k mk1).2 k mk2 =
      ((clientConstruct pool k mk1).1, (clientConstruct pool k mk1).2) ∧
    (clientConstruct pool k mk1).1 = ⟨true, some mk1⟩ := by
  have h1 : clientConstruct pool k mk1 =
      (⟨true, some mk1⟩, alistPut pool k ⟨true, some mk1⟩) := by
    rw [clientConstruct, hk]
    rfl
  refine ⟨?_, by rw [h1]⟩
  rw [h1]
  rw [clientConstruct, poolFind_alistPut]
  simp [clientInit, alistPut_idem]

/-- witness for `client_identity_pooling` at the key `(7, "localhost",
27015)` over `RconState`, starting from the empty pool -/
theorem client_identity_pooling_witness :
    clientConstruct (σ := RconState)
      (clientConstruct [] ⟨7, "localhost", 27015⟩ ⟨false, false, false⟩).2
      ⟨7, "localhost", 27015⟩ ⟨true, true, true⟩ =
      ((clientConstruct [] ⟨7, "localhost", 27015⟩ (⟨false, false, false⟩ : RconState)).1,
       (clientConstruct [] ⟨7, "localhost", 27015⟩ (⟨false, false, false⟩ : RconState)).2) ∧
    (clientConstruct [] ⟨7, "localhost", 27015⟩ (⟨false, false, false⟩ : RconState)).1 =
      ⟨true, some ⟨false, false, false⟩⟩ :=
  client_identity_pooling [] ⟨7, "localhost", 27015⟩
    (⟨false, false, false⟩ : RconState) (⟨true, true, true⟩ : RconState) rfl

/-- C8: dedup idempotence — for an inbound event that passes the
human/channel/ignore guards and whose platform message identity has not
been seen, processing it marks the identity seen, and processing a second
event with the same identity against the resulting state is dropped at the
`ctx.message_id in self.seen_messages_id` check (`_discord.py:504-506`)
before any fan-out: the second delivery produces no subscriber invocations
and leaves the state unchanged, so two deliveries fan out exactly once. -/
theorem dedup_single_fanout (st : RelayInState) (e : InEvent) (apps : List Subscriber)
    (hhuman : e.isHuman = true)
    (hchan : alistFind st.chat e.channelId = some apps)
    (hig : (!(e.content == "") && pyStartsWith (pyStrip e.content) "!") = false)
    (hnew : e.messageId ∉ st.seen) :
    (on_dc_message st e).1 = { st with seen := e.messageId :: st.seen } ∧
    e.messageId ∈ (on_dc_message st e).1.seen ∧
    on_dc_message (on_dc_message st e).1 e = ((on_dc_message st e).1, [], true) := by
  have h1 : (on_dc_message st e).1 = { st with seen := e.messageId :: st.seen } := by
    rw [on_dc_message]
    simp only [hhuman, hchan, hig, Bool.not_true]
    simp only [hnew, if_false, ite_false, if_true, Bool.false_eq_true]
    by_cases hfan : (fanApps apps).2 = true
    · rcases hsp : alistFind st.special e.channelId with _ | specials <;> simp [hfan, hsp]
    · simp [hfan]
  refine ⟨h1, by rw [h1]; exact List.mem_cons_self _ _, ?_⟩
  rw [h1, on_dc_message]
  simp [hhuman, hchan, hig]

/-- witness for `dedup_single_fanout`: channel 9 with one running workload,
message identity 42 delivered twice -/
theorem dedup_single_fanout_witness :
    (on_dc_message ⟨[], [(9, [⟨"appA", true, true, true⟩])], [(9, [])]⟩
        ⟨true, 9, "hi", 42⟩).1 =
      ⟨[42], [(9, [⟨"appA", true, true, true⟩])], [(9, [])]⟩ ∧
    42 ∈ (on_dc_message ⟨[], [(9, [⟨"appA", true, true, true⟩])], [(9, [])]⟩
        ⟨true, 9, "hi", 42⟩).1.seen ∧
    on_dc_message
        (on_dc_message ⟨[], [(9, [⟨"appA", true, true, true⟩])], [(9, [])]⟩
          ⟨true, 9, "hi", 42⟩).1 ⟨true, 9, "hi", 42⟩ =
      ((on_dc_message ⟨[], [(9, [⟨"appA", true, true, true⟩])], [(9, [])]⟩
          ⟨true, 9, "hi", 42⟩).1, [], true) := by
  have h := dedup_single_fanout ⟨[], [(9, [⟨"appA", true, true, true⟩])], [(9, [])]⟩
    ⟨true, 9, "hi", 42⟩ [⟨"appA", true, true, true⟩] rfl (by decide) (by decide) (by decide)
  exact ⟨h.1, h.2.1, h.2.2⟩

/-- C9: termination escalation — for a stored process that ignores the
graceful terminate signal (it raises nothing, but never exits on
terminate) and dies only on kill, `stop()` produces exactly the escalation
`terminate`, the 5-second grace wait, ten 0.3-second exit polls, then
`kill` (`_app.py:176-194`), and afterwards `check_running()` is false for
every poll answer, because `_terminate` cleared the handle at
`_app.py:195`. -/
theorem termination_escalation (s : AppState) (p : ProcBehavior)
    (hp : s.process = some p) (ht : p.termRaises = false) (hig : p.diesOnTerm = false)
    (hk : p.killRaises = false) (hd : p.diesOnKill = true) :
    (appStop s).2 =
      [TermEvent.terminate, TermEvent.graceWaitSec 5] ++
        List.replicate 10 (TermEvent.pollSleepMs 300) ++ [TermEvent.kill] ∧
    (terminateProc p).2 = true ∧
    (∀ exited, check_running (appStop s).1 exited = false) := by
  refine ⟨?_, ?_, ?_⟩
  · simp [appStop, appTerminate, hp, terminateProc, ht, hig]
  · simp [terminateProc, ht, hig, hk, hd]
  · intro exited
    simp [appStop, appTerminate, hp, check_running]

/-- witness for `termination_escalation`: a workload holding a
terminate-ignoring, killable process -/
theorem termination_escalation_witness :
    (appStop ⟨some ⟨false, false, false, true⟩, some "srv", true⟩).2 =
      [TermEvent.terminate, TermEvent.graceWaitSec 5] ++
        List.replicate 10 (TermEvent.pollSleepMs 300) ++ [TermEvent.kill] ∧
    (terminateProc ⟨false, false, false, true⟩).2 = true ∧
    (∀ exited, check_running
      (appStop ⟨some ⟨false, false, false, true⟩, some "srv", true⟩).1 exited = false) :=
  termination_escalation ⟨some ⟨false, false, false, true⟩, some "srv", true⟩
    ⟨false, false, false, true⟩ rfl rfl rfl rfl rfl

/-- C10: whenever `_terminate` runs with a stored handle, the handle is
cleared unconditionally before it returns — `self.process = None` at
`_app.py:195` executes even when both the terminate phase and the kill
escalation raise, because both sit inside log-only try/excepts — so
`check_running()` is false after every stop attempt, whatever `poll()`
would have answered for the (possibly still alive) OS process. -/
theorem terminate_clears_handle (s : AppState) (p : ProcBehavior)
    (hp : s.process = some p) :
    (appTerminate s).1.process = none ∧
    (∀ exited, check_running (appTerminate s).1 exited = false) := by
  refine ⟨by simp [appTerminate, hp], fun exited => by simp [appTerminate, hp, check_running]⟩

/-- witness for `terminate_clears_handle` at a process whose `terminate()`
and `kill()` both raise and which never exits -/
theorem terminate_clears_handle_witness :
    (appTerminate ⟨some ⟨true, false, true, false⟩, none, true⟩).1.process = none ∧
    (∀ exited, check_running
      (appTerminate ⟨some ⟨true, false, true, false⟩, none, true⟩).1 exited = false) :=
  terminate_clears_handle ⟨some ⟨true, false, true, false⟩, none, true⟩
    ⟨true, false, true, false⟩ rfl

end Yukibot
